import Mathlib

/-!
Verification of the replivideo video-generation service: a shallow embedding of
the job record store, the avatar rendering services, the media composition
engine and the pipeline orchestrator of `main.py` and `services/`, together
with proofs about the job-record lifecycle, progress reporting, error
sanitization and the ffmpeg command construction.

External effects (HTTP calls, subprocesses, the file system, the clock) are
modelled by explicit environment records: each field of an environment gives
the outcome of one effectful operation, and the embedded functions branch on
those outcomes exactly as the Python source branches on exceptions and return
values.  A Python function that may raise is embedded with result type
`Except String α`, the `String` being `str(e)`; a function whose body catches
every exception is embedded as a total function.
-/

set_option maxHeartbeats 1000000
set_option maxRecDepth 8000

namespace Replivideo

/-! ## Job records (the entries of `videos_db` in `main.py`) -/

/-- Job status strings used in `main.py`: `"processing"`, `"completed"`,
`"failed"`. -/
inductive Status
  | processing
  | completed
  | failed
deriving DecidableEq, Repr

/-- One entry of the `videos_db` dictionary, as created by
`create_video` / `create_video_with_script` (main.py 1453-1496) and mutated by
the pipelines.  `video_path` and `approved_script` are keys that only some
records carry; they are modelled as optional fields defaulting to `none`. -/
structure JobRecord where
  video_id : String
  status : Status
  progress : Nat
  current_stage : String
  video_url : Option String
  youtube_url : Option String
  created_at : Option String
  completed_at : Option String
  error : Option String
  video_path : Option String := none
  approved_script : Option String := none
deriving DecidableEq, Repr

/-- The in-memory `videos_db` map: job records keyed by job id (a Python
dict, modelled as an association list). -/
abbrev Store := List (String × JobRecord)

/-! ## Job record store operations (`main.py` 38-56 and 316-321) -/

/-- Embedding of `update_progress` (main.py 316-321).  The body is
`if video_id in videos_db: mutate and save`; when the id is absent the
function falls through and returns without raising and without creating a
record. -/
def update_progress (db : Store) (video_id : String) (progress : Nat)
    (stage : String) : Store :=
  if (db.lookup video_id).isSome then
    db.map fun kv =>
      if kv.1 = video_id then
        (kv.1, { kv.2 with progress := progress, current_stage := stage })
      else kv
  else db

/-- Error type named by the spec for updates against an unknown id. -/
inductive NotFoundError
  | notFound
deriving DecidableEq, Repr

/-- Modelled from the spec words (§4.1), for comparison with the code:
the store update "on an unknown id fails with NotFound"; on a known id it
performs the mutation. -/
def update_progress_specVersion (db : Store) (video_id : String) (progress : Nat)
    (stage : String) : Except NotFoundError Store :=
  if (db.lookup video_id).isSome then
    .ok (db.map fun kv =>
      if kv.1 = video_id then
        (kv.1, { kv.2 with progress := progress, current_stage := stage })
      else kv)
  else .error .notFound

/-- The state of the backing file `videos_db.json` at startup, classified by
which Python exception reading it with `open(...)` + `json.load` produces:

* `missing` — `VIDEO_DB_FILE.exists()` is false;
* `unreadable` — `open`/read raises `IOError` (an alias of `OSError`);
* `undecodable` — the file exists and is readable but its bytes are not valid
  UTF-8, so reading the text raises `UnicodeDecodeError` (a subclass of
  `ValueError`, not of `OSError` and not a `json.JSONDecodeError`);
* `malformed` — the text decodes but `json.load` raises `json.JSONDecodeError`;
* `wellformed` — `json.load` returns the stored map. -/
inductive DbFile
  | missing
  | unreadable (msg : String)
  | undecodable (msg : String)
  | malformed (msg : String)
  | wellformed (db : Store)

/-- Embedding of `load_videos_db` (main.py 38-47).  The `except` clause
catches exactly `(json.JSONDecodeError, IOError)`, printing a warning and
returning the empty map; any other exception — in particular the
`UnicodeDecodeError` raised for a byte-corrupted store file — propagates, and
since `load_videos_db` runs at import time (main.py 56) that makes startup
fail.  The result pairs the store with whether the warning was printed. -/
def load_videos_db : DbFile → Except String (Store × Bool)
  | .missing => .ok ([], false)
  | .unreadable _ => .ok ([], true)
  | .undecodable msg => .error msg
  | .malformed _ => .ok ([], true)
  | .wellformed db => .ok (db, false)

/-! ## Python text helpers

Python `str` values are embedded as `List Char` where character-level
operations matter (the avatar request builders). -/

/-- Helper for `pySplit`: walks the text with the current (reversed) word as
accumulator, closing the word at every whitespace character. -/
def pySplitAux : List Char → List Char → List (List Char)
  | [], acc => if acc.isEmpty then [] else [acc.reverse]
  | c :: cs, acc =>
    if c.isWhitespace then
      if acc.isEmpty then pySplitAux cs []
      else acc.reverse :: pySplitAux cs []
    else pySplitAux cs (c :: acc)

/-- Python `text.split()` with no argument: splits on runs of whitespace and
never yields empty words. -/
def pySplit (s : List Char) : List (List Char) :=
  pySplitAux s []

/-- Python `" ".join(words)`. -/
def pyJoinSpace (ws : List (List Char)) : List Char :=
  (ws.intersperse [' ']).flatten

/-- Python `str.lower()` at character level (the needles matched against it
here are ASCII, where the two agree). -/
def pyLower (s : List Char) : List Char :=
  s.map Char.toLower

/-- Does the list start with the given needle? -/
def listStartsWith : List Char → List Char → Bool
  | _, [] => true
  | [], _ :: _ => false
  | a :: as, b :: bs => (a = b) && listStartsWith as bs

/-- Python `sub in s` on character lists: some suffix of `s` starts with
`sub`. -/
def listHasInfix : List Char → List Char → Bool
  | [], sub => sub.isEmpty
  | a :: tail, sub => listStartsWith (a :: tail) sub || listHasInfix tail sub

/-! ## D-ID avatar service (`services/did_service.py`) -/

/-- Text limitation applied by `DIDService.create_avatar_video`
(did_service.py 136): `" ".join(text.split()[:100])` — the first 100
whitespace-separated words. -/
def didTextLimited (text : List Char) : List Char :=
  pyJoinSpace ((pySplit text).take 100)

/-- Embedding of the `voice_mapping` dict of `DIDService.create_avatar_video`
(did_service.py 96-103), including the `.get` default. -/
def didVoiceMapping (voice_type : String) : String :=
  if voice_type = "tr_female_professional" then "tr-TR-EmelNeural"
  else if voice_type = "tr_male_professional" then "tr-TR-AhmetNeural"
  else if voice_type = "tr_female_friendly" then "tr-TR-EmelNeural"
  else if voice_type = "tr_male_friendly" then "tr-TR-AhmetNeural"
  else "tr-TR-EmelNeural"

/-- Embedding of the `avatar_images` dict (did_service.py 27-32) with the
`.get(avatar_type, avatar_images["professional_female"])` default. -/
def didAvatarImages (avatar_type : String) : String :=
  if avatar_type = "professional_female" then
    "https://d-id-public-bucket.s3.us-west-2.amazonaws.com/alice.jpg"
  else if avatar_type = "professional_male" then
    "https://d-id-public-bucket.s3.us-west-2.amazonaws.com/adam.jpg"
  else if avatar_type = "casual_female" then
    "https://d-id-public-bucket.s3.us-west-2.amazonaws.com/amy.jpg"
  else if avatar_type = "casual_male" then
    "https://d-id-public-bucket.s3.us-west-2.amazonaws.com/mark.jpg"
  else
    "https://d-id-public-bucket.s3.us-west-2.amazonaws.com/alice.jpg"

/-- The `script` object submitted in the D-ID `/talks` request
(did_service.py 141-155). -/
structure DIDScriptPayload where
  scriptType : String
  input : List Char
  providerType : String
  voice_id : String
deriving DecidableEq, Repr

/-- Construction of the D-ID request script (did_service.py 136-155): the
submitted `input` is the word-limited text. -/
def didPayloadScript (text : List Char) (voice_type : String) : DIDScriptPayload :=
  { scriptType := "text"
    input := didTextLimited text
    providerType := "microsoft"
    voice_id := didVoiceMapping voice_type }

/-- Outcome of one D-ID status poll (did_service.py 183-210): the talk is
done, the talk reports an error (the service raises), or some other status
(the loop continues). -/
inductive DIDPoll
  | done
  | error (msg : String)
  | other (status : String)

/-- Environment for one `DIDService.create_avatar_video` call: the outcomes
of its effectful operations. -/
structure DIDEnv where
  /-- Whether `DID_API_KEY` was set (did_service.py 14-25). -/
  enabled : Bool
  /-- `Path(custom_image_path).exists()` per path (did_service.py 114-120). -/
  imageExists : String → Bool
  /-- Outcome of `_upload_custom_image` (raises on non-201 or missing url). -/
  uploadResult : Except String String
  /-- Outcome of `POST /talks` given the payload: the talk id, or the raised
  exception text for a non-201 response (did_service.py 162-177). -/
  apiCreate : DIDScriptPayload → Except String String
  /-- The status returned by the i-th poll of `GET /talks/{id}`. -/
  polls : Nat → DIDPoll
  /-- Outcome of downloading `result_url` (did_service.py 197-201). -/
  download : Except String Unit
  /-- `Path(f"videos/demo_avatar_{avatar_type}.mp4").exists()` per avatar
  type (did_service.py 224). -/
  placeholderExists : String → Bool

/-- The D-ID polling loop `for i in range(60)` (did_service.py 180-213): at
most 60 polls at 5-second intervals (the first argument is the number of
polls still allowed, the second the index of the current poll); `done`
downloads and returns the local clip path, `error` raises, exhaustion raises
the timeout message. -/
def didPollLoopAux (env : DIDEnv) (talk_id : String) :
    Nat → Nat → Except String String
  | 0, _ => .error "D-ID timeout after 5 minutes"
  | fuel + 1, i =>
    match env.polls i with
    | .done =>
      match env.download with
      | .ok _ => .ok s!"videos/avatar_{talk_id}.mp4"
      | .error e => .error e
    | .error msg => .error s!"D-ID error: {msg}"
    | .other _ => didPollLoopAux env talk_id fuel (i + 1)

/-- The full 60-attempt D-ID polling loop. -/
def didPollLoop (env : DIDEnv) (talk_id : String) : Except String String :=
  didPollLoopAux env talk_id 60 0

/-- Embedding of `DIDService._create_demo_video` (did_service.py 219-228):
returns the previously cached per-persona placeholder clip if it exists,
otherwise raises. -/
def DIDService.create_demo_video (env : DIDEnv) (avatar_type : String) :
    Except String String :=
  if env.placeholderExists avatar_type then
    .ok s!"videos/demo_avatar_{avatar_type}.mp4"
  else
    .error s!"Demo video not found: videos/demo_avatar_{avatar_type}.mp4. Please create valid demo videos first."

/-- The `try` body of `DIDService.create_avatar_video` (did_service.py
110-213): resolve the avatar source, submit the talk, poll. -/
def DIDService.attemptCreate (env : DIDEnv) (text : List Char)
    (avatar_type : String) (custom_image_path : Option String)
    (voice_type : String) : Except String String := do
  let _avatar_url ←
    match custom_image_path with
    | some p =>
      if env.imageExists p then env.uploadResult
      else pure (didAvatarImages avatar_type)
    | none => pure (didAvatarImages avatar_type)
  let talk_id ← env.apiCreate (didPayloadScript text voice_type)
  didPollLoop env talk_id

/-- Embedding of `DIDService.create_avatar_video` (did_service.py 84-217).
Demo mode and every caught exception fall back to `create_demo_video`, whose
own failure (missing placeholder) is the only error that reaches the
caller. -/
def DIDService.create_avatar_video (env : DIDEnv) (text : List Char)
    (avatar_type : String) (custom_image_path : Option String := none)
    (voice_type : String := "tr_female_professional") : Except String String :=
  if !env.enabled then DIDService.create_demo_video env avatar_type
  else
    match DIDService.attemptCreate env text avatar_type custom_image_path voice_type with
    | .ok p => .ok p
    | .error _ => DIDService.create_demo_video env avatar_type

/-! ## HeyGen avatar service (`services/heygen_service.py`) -/

/-- Embedding of the `avatars` dict (heygen_service.py 24-29) with the
`.get(avatar_type, avatars["professional_female"])` default. -/
def heygenAvatars (avatar_type : String) : String :=
  if avatar_type = "professional_female" then "Daisy-inskirt-20220818"
  else if avatar_type = "professional_male" then "Josh_lite3_20230714"
  else if avatar_type = "casual_female" then "Anna_public_3_20240108"
  else if avatar_type = "casual_male" then "Lucas_public_2_20240210"
  else "Daisy-inskirt-20220818"

/-- The `voice` object of the HeyGen generation request
(heygen_service.py 121-125). -/
structure HeyGenVoicePayload where
  voiceType : String
  input_text : List Char
  voice_id : String
deriving DecidableEq, Repr

/-- The HeyGen v2 generation request body (heygen_service.py 106-136): the
avatar id, the voice section carrying `truncated_text = text[:1500]` — the
first 1500 characters — the background color, dimensions, and test flag. -/
structure HeyGenPayload where
  avatar_id : String
  voice : HeyGenVoicePayload
  background_color : String
  width : Nat
  height : Nat
  test : Bool
deriving DecidableEq, Repr

/-- Construction of the HeyGen request (heygen_service.py 104-136). -/
def heygenPayload (text : List Char) (avatar_type voice_id : String) :
    HeyGenPayload :=
  { avatar_id := heygenAvatars avatar_type
    voice := { voiceType := "text", input_text := text.take 1500, voice_id := voice_id }
    background_color := "#FFFFFF"
    width := 1280
    height := 720
    test := false }

/-- Outcome of one HeyGen status poll (heygen_service.py 160-202). -/
inductive HGPoll
  | statusCodeBad (msg : String)
  | completed (hasUrl : Bool)
  | processing
  | failedStatus (msg : String)
  | otherStatus (status : String)

/-- Environment for one `HeyGenService.create_avatar_video` call. -/
structure HeyGenEnv where
  /-- Whether `HEYGEN_API_KEY` was set (heygen_service.py 15-21). -/
  enabled : Bool
  /-- The voice id after `get_turkish_voices`; `none` when no Turkish voice
  was found (that call catches its own errors and returns an empty list). -/
  turkish_voice_id : Option String
  /-- Outcome of `POST /v2/video/generate` given the payload: the video id,
  or the raised exception text (HTTP error, `error` field, missing id). -/
  submit : HeyGenPayload → Except String String
  /-- The status returned by the i-th poll of `/v1/video_status.get`. -/
  polls : Nat → HGPoll
  /-- Outcome of downloading the completed video (heygen_service.py 185-186). -/
  download : Except String Unit
  /-- `Path("demo_assets/demo_video.mp4").exists()` (heygen_service.py 220). -/
  demoAssetExists : Bool

/-- The HeyGen polling loop `for attempt in range(max_attempts)` with
`max_attempts = 60` (heygen_service.py 159-204); the first argument is the
number of attempts still allowed, the second the current attempt index. -/
def heygenPollLoopAux (env : HeyGenEnv) (video_id : String) :
    Nat → Nat → Except String String
  | 0, _ => .error "Video generation timeout after 2 minutes"
  | fuel + 1, i =>
    match env.polls i with
    | .statusCodeBad msg => .error s!"Status check error: {msg}"
    | .completed hasUrl =>
      if hasUrl then
        match env.download with
        | .ok _ => .ok s!"videos/heygen_{video_id}.mp4"
        | .error e => .error e
      else .error "No video URL in completed status"
    | .processing => heygenPollLoopAux env video_id fuel (i + 1)
    | .failedStatus msg => .error s!"Video generation failed: {msg}"
    | .otherStatus _ => heygenPollLoopAux env video_id fuel (i + 1)

/-- The full 60-attempt HeyGen polling loop. -/
def heygenPollLoop (env : HeyGenEnv) (video_id : String) : Except String String :=
  heygenPollLoopAux env video_id 60 0

/-- How `HeyGenService._create_demo_video` produced the file it returns:
copied from the shared demo asset, or freshly synthesized with an ffmpeg
`lavfi` command run with `check=False` (heygen_service.py 219-233). -/
inductive HeyGenDemoSource
  | copiedDemoAsset
  | ffmpegSynthesized
deriving DecidableEq, Repr

/-- Embedding of `HeyGenService._create_demo_video` (heygen_service.py
213-236): copies the demo asset when present, otherwise synthesizes a 5s
black clip (ignoring even that subprocess failing, `check=False`), and in
every case returns the per-persona path without raising. -/
def HeyGenService.create_demo_video (env : HeyGenEnv) (avatar_type : String) :
    String × HeyGenDemoSource :=
  if env.demoAssetExists then
    (s!"videos/demo_heygen_{avatar_type}.mp4", .copiedDemoAsset)
  else
    (s!"videos/demo_heygen_{avatar_type}.mp4", .ffmpegSynthesized)

/-- The `try` body of `HeyGenService.create_avatar_video`
(heygen_service.py 93-204), given a found Turkish voice id. -/
def HeyGenService.attemptCreate (env : HeyGenEnv) (text : List Char)
    (avatar_type voice_id : String) : Except String String := do
  let video_id ← env.submit (heygenPayload text avatar_type voice_id)
  heygenPollLoop env video_id

/-- Embedding of `HeyGenService.create_avatar_video` (heygen_service.py
86-211).  Demo mode, a missing Turkish voice, and both `except` clauses all
fall back to `_create_demo_video`, which never raises — so this function
always returns a path. -/
def HeyGenService.create_avatar_video (env : HeyGenEnv) (text : List Char)
    (avatar_type : String) : Except String String :=
  if !env.enabled then .ok (HeyGenService.create_demo_video env avatar_type).1
  else
    match env.turkish_voice_id with
    | none => .ok (HeyGenService.create_demo_video env avatar_type).1
    | some voice_id =>
      match HeyGenService.attemptCreate env text avatar_type voice_id with
      | .ok p => .ok p
      | .error _ => .ok (HeyGenService.create_demo_video env avatar_type).1

/-! ## ElevenLabs TTS service (`services/elevenlabs_service.py`) -/

/-- Environment for one `ElevenLabsService.text_to_speech` call. -/
structure TTSEnv where
  /-- Whether `ELEVENLABS_API_KEY` was set. -/
  enabled : Bool
  /-- Outcome of the `convert` API call and the streaming write
  (elevenlabs_service.py 36-49). -/
  convert : Except String Unit

/-- Embedding of `ElevenLabsService.text_to_speech` (elevenlabs_service.py
26-56): demo mode and any caught exception fall back to
`_create_demo_audio`, which writes a placeholder and returns its path, so the
function never raises. -/
def ElevenLabsService.text_to_speech (env : TTSEnv) (_text : List Char)
    (voice_type : String) : String :=
  if !env.enabled then "videos/demo_audio.mp3"
  else
    match env.convert with
    | .ok _ => s!"videos/audio_{voice_type}.mp3"
    | .error _ => "videos/demo_audio.mp3"

/-! ## Media composition engine (`services/video_composer.py`) -/

/-- What ends up at the requested output path of a composition step. -/
inductive ComposeOutput
  | composed
  | demoCopy
  | stubHeader
deriving DecidableEq, Repr

/-- Embedding of `VideoComposer._create_demo_fallback` (video_composer.py
190-210): copies `demo_assets/demo_video.mp4` to the output path when that
asset exists, otherwise writes a bare 32-byte MP4 `ftyp` box there; either
way it returns the output path as if composition had succeeded. -/
def VideoComposer.create_demo_fallback (demoAssetExists : Bool)
    (output_path : String) : String × ComposeOutput :=
  if demoAssetExists then (output_path, .demoCopy)
  else (output_path, .stubHeader)

/-- The byte length of the placeholder written by `_create_demo_fallback`
when the demo asset is missing (video_composer.py 200-207): a lone `ftyp`
box with no `moov` or `mdat` box, hence no stream data. -/
def stubHeaderLength : Nat := 32

/-- A deliverable is playable only if it carries actual movie data: the
32-byte `ftyp`-only stub contains none. -/
def ComposeOutput.isPlayableDeliverable : ComposeOutput → Bool
  | .composed => true
  | .demoCopy => true
  | .stubHeader => false

/-- Environment for the `VideoComposer` operations: outcomes of the file
checks, the ffmpeg/ffprobe subprocesses, and the demo-asset lookup. -/
structure ComposeEnv where
  /-- `Path(p).exists()` per path. -/
  fileExists : String → Bool
  /-- Outcome of the concat ffmpeg run (video_composer.py 57-68):
  `_run_ffmpeg` raises `RuntimeError` on a non-zero exit. -/
  concatExit : Except String Unit
  /-- Outcome of the mux ffmpeg run (video_composer.py 71-90 and 240-259). -/
  muxExit : Except String Unit
  /-- Outcome of the overlay ffmpeg run (video_composer.py 330-355). -/
  overlayExit : Except String Unit
  /-- Outcome of `ffprobe` + `float(...)` on an audio file
  (video_composer.py 307-316): the probed duration in seconds, or the raised
  exception text. -/
  probe : String → Except String ℚ
  /-- `Path("demo_assets/demo_video.mp4").exists()`. -/
  demoAssetExists : Bool

/-- Embedding of `VideoComposer.compose_video` (video_composer.py 16-105):
concatenate the valid avatar clips, then mux with the narration audio.  Every
failure path — missing inputs, no valid clips, a non-zero ffmpeg exit — is
caught and answered with `_create_demo_fallback`; the function never raises
and always returns the requested output path. -/
def VideoComposer.compose_video (env : ComposeEnv) (avatar_clips : List String)
    (audio_file video_id : String) : String × ComposeOutput :=
  let final_video_path := s!"videos/final_{video_id}.mp4"
  if avatar_clips.isEmpty || !env.fileExists audio_file then
    VideoComposer.create_demo_fallback env.demoAssetExists final_video_path
  else
    let valid_clips := avatar_clips.filter env.fileExists
    if valid_clips.isEmpty then
      VideoComposer.create_demo_fallback env.demoAssetExists final_video_path
    else
      match env.concatExit with
      | .error _ => VideoComposer.create_demo_fallback env.demoAssetExists final_video_path
      | .ok _ =>
        match env.muxExit with
        | .error _ => VideoComposer.create_demo_fallback env.demoAssetExists final_video_path
        | .ok _ => (final_video_path, .composed)

/-- Embedding of `VideoComposer.mux_screen_recording_with_audio`
(video_composer.py 212-266): one re-encoding mux of the screen recording with
the narration; all failures fall back to `_create_demo_fallback`. -/
def VideoComposer.mux_screen_recording_with_audio (env : ComposeEnv)
    (screen_video audio_file video_id : String) : String × ComposeOutput :=
  let final_video_path := s!"videos/final_{video_id}.mp4"
  if !env.fileExists screen_video then
    VideoComposer.create_demo_fallback env.demoAssetExists final_video_path
  else if !env.fileExists audio_file then
    VideoComposer.create_demo_fallback env.demoAssetExists final_video_path
  else
    match env.muxExit with
    | .error _ => VideoComposer.create_demo_fallback env.demoAssetExists final_video_path
    | .ok _ => (final_video_path, .composed)

/-- The four overlay anchor expressions of the `positions` dict
(video_composer.py 320-325), as functions of the main frame size `W × H` and
the overlay size `w × h`, including the
`positions.get(position, positions["bottom_right"])` default. -/
def overlayPositionExpr (position : String) (W H w h : ℤ) : ℤ × ℤ :=
  if position = "bottom_right" then (W - w - 20, H - h - 20)
  else if position = "bottom_left" then (20, H - h - 20)
  else if position = "top_right" then (W - w - 20, 20)
  else if position = "top_left" then (20, 20)
  else (W - w - 20, H - h - 20)

/-- The ffmpeg filter invocation built by
`overlay_avatar_on_screen_recording` (video_composer.py 328-352):
`[1:v]scale=300:300,format=yuva420p,geq=lum=lum(X,Y):a=if(lt(sqrt(pow(X-150,2)+pow(Y-150,2)),150),255,0)[avatar];[0:v][avatar]overlay=POS[v]`
plus `-t audio_duration`. -/
structure OverlayCommand where
  scale_w : Nat
  scale_h : Nat
  mask_cx : ℤ
  mask_cy : ℤ
  mask_r : ℤ
  position : String
  trim_seconds : ℚ
deriving DecidableEq, Repr

/-- Construction of the overlay command from the position argument and the
probed narration duration. -/
def overlayCommand (position : String) (audio_duration : ℚ) : OverlayCommand :=
  { scale_w := 300, scale_h := 300, mask_cx := 150, mask_cy := 150
    mask_r := 150, position := position, trim_seconds := audio_duration }

/-- Embedding of `VideoComposer.overlay_avatar_on_screen_recording`
(video_composer.py 268-362).  The third component records the ffmpeg command
actually run (`none` when the function fell back before reaching ffmpeg).
All failures fall back to `_create_demo_fallback`; the function never
raises. -/
def VideoComposer.overlay_avatar_on_screen_recording (env : ComposeEnv)
    (screen_video avatar_video audio_file video_id : String)
    (position : String := "bottom_right") :
    (String × ComposeOutput) × Option OverlayCommand :=
  let final_video_path := s!"videos/final_{video_id}.mp4"
  if !env.fileExists screen_video then
    (VideoComposer.create_demo_fallback env.demoAssetExists final_video_path, none)
  else if !env.fileExists avatar_video then
    (VideoComposer.create_demo_fallback env.demoAssetExists final_video_path, none)
  else if !env.fileExists audio_file then
    (VideoComposer.create_demo_fallback env.demoAssetExists final_video_path, none)
  else
    match env.probe audio_file with
    | .error _ =>
      (VideoComposer.create_demo_fallback env.demoAssetExists final_video_path, none)
    | .ok audio_duration =>
      let cmd := overlayCommand position audio_duration
      match env.overlayExit with
      | .error _ =>
        (VideoComposer.create_demo_fallback env.demoAssetExists final_video_path, some cmd)
      | .ok _ => ((final_video_path, .composed), some cmd)

/-! ### Semantics of the circular-overlay filter graph

A pixel-level model of the filter built above: frames are pixel samplers with
a size, the `geq` alpha term makes a pixel of the scaled 300×300 clip opaque
exactly when it lies strictly inside the circle of radius 150 centred at
(150,150) (for nonnegative `d`, `sqrt d < 150` iff `d < 150²`), and the
`overlay` filter keeps the base frame size and replaces base pixels by
overlay pixels only where the overlay is opaque. -/

/-- A video frame: a size and a pixel sampler (values outside the frame
rectangle are irrelevant to the theorems). -/
structure Frame where
  width : ℤ
  height : ℤ
  pix : ℤ → ℤ → ℕ

/-- The alpha channel produced by the `geq` term of the overlay filter at
local overlay coordinates `(x, y)`:
`if(lt(sqrt(pow(X-cx,2)+pow(Y-cy,2)),r),255,0)`. -/
def maskAlpha (c : OverlayCommand) (x y : ℤ) : ℕ :=
  if (x - c.mask_cx) ^ 2 + (y - c.mask_cy) ^ 2 < c.mask_r ^ 2 then 255 else 0

/-- Model of `[0:v][avatar]overlay=X:Y[v]` applied to the masked avatar: the
output frame has the base frame size; inside the overlay window an opaque
(alpha 255) avatar pixel replaces the base pixel, everywhere else the base
pixel is kept (alpha 0 pixels are fully transparent). -/
def overlayFrame (c : OverlayCommand) (bg av : Frame) : Frame :=
  let o := overlayPositionExpr c.position bg.width bg.height c.scale_w c.scale_h
  { width := bg.width
    height := bg.height
    pix := fun x y =>
      if o.1 ≤ x ∧ x < o.1 + c.scale_w ∧ o.2 ≤ y ∧ y < o.2 + c.scale_h
          ∧ maskAlpha c (x - o.1) (y - o.2) = 255 then
        av.pix (x - o.1) (y - o.2)
      else bg.pix x y }

/-! ## Pipeline orchestrator (`main.py` 316-601 and 1453-1496)

The observable lifecycle of one job.  In asyncio, tasks interleave only at
`await` points; every mutation of `videos_db[video_id]` in the pipelines is a
synchronous block immediately followed by an awaited
`save_videos_db`, so the states another task (for example the `/status`
endpoint) can observe are exactly the states at those persist points.  A run
is therefore modelled as the list of persisted snapshots of the one record
the pipeline owns. -/

/-- The evolving run of one job: the persisted snapshots so far, the
`progress` arguments of the `update_progress` calls made so far (for the
fixed-constants claims), and the current in-memory record. -/
structure PState where
  trace : List JobRecord
  updates : List Nat
  cur : JobRecord
deriving Repr

/-- Persist the current record (one `await save_videos_db(videos_db)`). -/
def PState.persist (s : PState) : PState :=
  { s with trace := s.trace ++ [s.cur] }

/-- A synchronous in-memory mutation of the job record. -/
def PState.mutate (s : PState) (f : JobRecord → JobRecord) : PState :=
  { s with cur := f s.cur }

/-- One `update_progress(video_id, p, stage)` call from inside a pipeline:
the job id is always present in `videos_db` there (inserted by the create
endpoint before the task starts), so the call mutates progress and stage and
persists. -/
def pstepProgress (p : Nat) (stage : String) (s : PState) : PState :=
  { trace := s.trace ++ [{ s.cur with progress := p, current_stage := stage }]
    updates := s.updates ++ [p]
    cur := { s.cur with progress := p, current_stage := stage } }

/-- The request body of `POST /api/videos/create` (`VideoCreateRequest`,
main.py 58-68). -/
structure VideoCreateRequest where
  url : String
  avatar_type : String := "professional_female"
  voice_type : String := "tr_female_professional"
  video_style : String := "tutorial"
  provider : String := "heygen"
  video_duration : Nat := 10
  mode : String := "avatar"
  scroll_speed : String := "medium"
  custom_prompt : Option String := none
  custom_avatar_image_id : Option String := none

/-- The request body of `POST /api/videos/create-with-script`
(`VideoCreateWithScriptRequest`, main.py 92-103). -/
structure VideoCreateWithScriptRequest where
  url : String
  script : String
  avatar_type : String := "professional_female"
  voice_type : String := "tr_female_professional"
  video_style : String := "tutorial"
  provider : String := "heygen"
  video_duration : Nat := 10
  mode : String := "avatar"
  scroll_speed : String := "medium"
  custom_prompt : Option String := none
  custom_avatar_image_id : Option String := none

/-- Environment of one pipeline run: the outcomes of every collaborator call
and subprocess the pipeline makes.  Calls whose Python implementation
swallows its own failures are total; calls whose exceptions propagate to the
pipeline are `Except`. -/
structure PipelineEnv where
  /-- `datetime.now().isoformat()` at pipeline start. -/
  nowCreated : String
  /-- `datetime.now().isoformat()` at completion. -/
  nowCompleted : String
  /-- Outcome of `ContentAnalyzer.analyze_url` (website_analyzer.py 107-127):
  re-raises fetch/analysis errors, so it can propagate. -/
  analyze : Except String String
  /-- Result of `ScreenRecorderService.record_website`
  (screen_recorder.py 51-151): every exception is caught and answered with
  `_create_demo_recording`, so the call always returns a path. -/
  screenRecorder : String
  /-- Outcome of `ScriptGenerator.generate_script` → `AIService`
  (ai_service.py 25-253): the AI API calls have no surrounding
  `try`/`except`, so their exceptions propagate. -/
  scriptGen : Except String String
  /-- Environment of the `TTSService.generate_audio` call. -/
  tts : TTSEnv
  /-- Environment of the direct `DIDService.create_avatar_video` call made by
  the custom-avatar-overlay branches. -/
  did : DIDEnv
  /-- Per-section outcomes of `service.create_avatar_video` inside
  `AvatarService.render_avatar_segments` (main.py 299-311). -/
  sectionRenders : List (Except String String)
  /-- Environment of the `VideoComposer` calls. -/
  compose : ComposeEnv
  /-- `Path(p).exists()` for the uploaded custom image candidates
  (main.py 357-367 / 486-496). -/
  imageFileExists : String → Bool

/-- Embedding of `AvatarService.render_avatar_segments` (main.py 284-314)
as called by `process_video_pipeline` with the script dict produced by
`ScriptGenerator.generate_script`: each section render is tried under
`try`/`except ... continue`, so failed sections are skipped and the function
never raises; it returns the paths of the sections that succeeded, in
order. -/
def AvatarService.render_avatar_segments
    (sectionResults : List (Except String String)) : List String :=
  sectionResults.foldl
    (fun acc r => match r with | .ok p => acc ++ [p] | .error _ => acc) []

/-- The text of the `TypeError` raised by `script["sections"]`
(main.py 299) when `script` is a Python `str`: indexing a string with a
string key fails unconditionally ("string indices must be integers"; later
interpreter versions append ", not 'str'" — either wording contains neither
"timeout" nor "api", so it sanitizes to the generic message). -/
def strIndicesTypeError : String := "string indices must be integers"

/-- Embedding of `AvatarService.render_avatar_segments` (main.py 284-314)
as called by the with-script avatar branch (main.py 425) with a plain
string script: the script is always a `str` there (the request field is
declared `str`, `approved_script` stores that string, and the
`isinstance(script, dict)` guard at main.py 332 can never fire), so building
`enumerate(script["sections"])` at main.py 299 raises the `TypeError`
before any section is reached — outside the per-section `try`/`except`, so
it propagates to the caller unconditionally. -/
def AvatarService.render_avatar_segments_on_str (_script : String) :
    Except String (List String) :=
  .error strIndicesTypeError

/-- The custom-image lookup of the overlay branches (main.py 353-367 and
484-496): try `videos/uploads/{id}.jpg`, then `.png`, else `None`. -/
def resolveCustomImage (fileExists : String → Bool) :
    Option String → Option String
  | none => none
  | some image_id =>
    let jpg := s!"videos/uploads/{image_id}.jpg"
    let png := s!"videos/uploads/{image_id}.png"
    if fileExists jpg then some jpg
    else if fileExists png then some png
    else none

/-- The completion block shared by every success path (for example
main.py 552-557): `update_progress(100, "✅ ...")`, then set
status/video_url/video_path/completed_at in one synchronous block,
then persist. -/
def completeJob (env : PipelineEnv) (video_id final_video : String)
    (s : PState) : PState :=
  let s := pstepProgress 100 "✅ Video completed successfully!" s
  (s.mutate fun r =>
    { r with
      status := .completed
      video_url := some s!"/api/videos/{video_id}/download"
      video_path := some final_video
      completed_at := some env.nowCompleted }).persist

/-- The error sanitization of the pipeline `except` blocks (main.py 589-595
and 439-444): a fixed generic message, overridden when `str(e).lower()`
contains `"timeout"` or `"api"`. -/
def sanitizeErrorMsg (e : String) : String :=
  if listHasInfix (pyLower e.toList) "timeout".toList then
    "Video oluşturma zaman aşımına uğradı"
  else if listHasInfix (pyLower e.toList) "api".toList then
    "API servisi ile bağlantı kurulamadı"
  else "Video işleme sırasında bir hata oluştu"

/-- The three sanitized user-facing messages the handler can store. -/
def sanitizedMessages : List String :=
  ["Video oluşturma zaman aşımına uğradı",
   "API servisi ile bağlantı kurulamadı",
   "Video işleme sırasında bir hata oluştu"]

/-- The pipeline `except` block (main.py 589-601): set status, the sanitized
error and the stage label; the raw exception goes only to `print`. -/
def failJob (e : String) (s : PState) : PState :=
  (s.mutate fun r =>
    { r with
      status := .failed
      error := some (sanitizeErrorMsg e)
      current_stage := "❌ Hata: " ++ sanitizeErrorMsg e }).persist

/-- The custom_avatar_overlay branch of `process_video_pipeline`
(main.py 459-522). -/
def pipelineOverlayBranch (env : PipelineEnv) (req : VideoCreateRequest)
    (video_id : String) (s : PState) : PState × Option String :=
  let s := pstepProgress 5 "📊 Analyzing content..." s
  match env.analyze with
  | .error e => (s, some e)
  | .ok _repo_data =>
    let s := pstepProgress 15 "🎬 Recording screen with browser automation..." s
    let screen_video := env.screenRecorder
    let dur := req.video_duration
    let s := pstepProgress 35 s!"✍️ Generating {dur}-minute Turkish narration script with AI..." s
    match env.scriptGen with
    | .error e => (s, some e)
    | .ok script =>
      let s := pstepProgress 50 "🎤 Creating Turkish professional voiceover..." s
      let audio_file := ElevenLabsService.text_to_speech env.tts script.toList req.voice_type
      let s := pstepProgress 65 "🎭 Creating custom avatar video with lip-sync..." s
      let custom_image_path := resolveCustomImage env.imageFileExists req.custom_avatar_image_id
      match DIDService.create_avatar_video env.did (script.toList.take 500)
          req.avatar_type custom_image_path with
      | .error e => (s, some e)
      | .ok avatar_video =>
        let s := pstepProgress 85 "🎬 Overlaying circular avatar on screen recording..." s
        let final := (VideoComposer.overlay_avatar_on_screen_recording env.compose
          screen_video avatar_video audio_file video_id "bottom_right").1.1
        (completeJob env video_id final s, none)

/-- The screen_recording branch of `process_video_pipeline`
(main.py 524-557). -/
def pipelineScreenBranch (env : PipelineEnv) (req : VideoCreateRequest)
    (video_id : String) (s : PState) : PState × Option String :=
  let s := pstepProgress 10 "📊 Analyzing content..." s
  match env.analyze with
  | .error e => (s, some e)
  | .ok _repo_data =>
    let s := pstepProgress 20 "🎬 Recording screen with browser automation..." s
    let screen_video := env.screenRecorder
    let dur := req.video_duration
    let s := pstepProgress 50 s!"✍️ Generating {dur}-minute Turkish narration script with AI..." s
    match env.scriptGen with
    | .error e => (s, some e)
    | .ok script =>
      let s := pstepProgress 70 "🎤 Creating Turkish professional voiceover..." s
      let audio_file := ElevenLabsService.text_to_speech env.tts script.toList req.voice_type
      let s := pstepProgress 90 "🎬 Muxing screen recording with audio..." s
      let final := (VideoComposer.mux_screen_recording_with_audio env.compose
        screen_video audio_file video_id).1
      (completeJob env video_id final s, none)

/-- The avatar (default) branch of `process_video_pipeline`
(main.py 559-587). -/
def pipelineAvatarBranch (env : PipelineEnv) (req : VideoCreateRequest)
    (video_id : String) (s : PState) : PState × Option String :=
  let s := pstepProgress 10 "📊 Analyzing content..." s
  match env.analyze with
  | .error e => (s, some e)
  | .ok _repo_data =>
    let dur := req.video_duration
    let s := pstepProgress 25 s!"✍️ Generating {dur}-minute Turkish script with AI..." s
    match env.scriptGen with
    | .error e => (s, some e)
    | .ok script =>
      let s := pstepProgress 45 "🎤 Creating Turkish professional voiceover..." s
      let audio_file := ElevenLabsService.text_to_speech env.tts script.toList req.voice_type
      let prov := req.provider.toUpper
      let s := pstepProgress 65 s!"🎭 Rendering avatar video segments with {prov}..." s
      let avatar_videos := AvatarService.render_avatar_segments env.sectionRenders
      let s := pstepProgress 85 "🎬 Composing final video..." s
      let final := (VideoComposer.compose_video env.compose avatar_videos
        audio_file video_id).1
      (completeJob env video_id final s, none)

/-- The `try` body of `process_video_pipeline` (main.py 452-587): set
`created_at`, persist, then run the mode-selected branch. -/
def pipelineCore (env : PipelineEnv) (req : VideoCreateRequest)
    (video_id : String) (s0 : PState) : PState × Option String :=
  let s := (s0.mutate fun r => { r with created_at := some env.nowCreated }).persist
  if req.mode = "custom_avatar_overlay" then pipelineOverlayBranch env req video_id s
  else if req.mode = "screen_recording" then pipelineScreenBranch env req video_id s
  else pipelineAvatarBranch env req video_id s

/-- Embedding of `process_video_pipeline` (main.py 452-601): the try body,
with every propagated exception routed to the sanitizing handler. -/
def process_video_pipeline (env : PipelineEnv) (req : VideoCreateRequest)
    (video_id : String) (s0 : PState) : PState :=
  match pipelineCore env req video_id s0 with
  | (s, none) => s
  | (s, some e) => failJob e s

/-- The custom_avatar_overlay branch of `process_video_pipeline_with_script`
(main.py 336-393). -/
def pipelineWSOverlayBranch (env : PipelineEnv)
    (req : VideoCreateWithScriptRequest) (video_id script : String)
    (s : PState) : PState × Option String :=
  let s := pstepProgress 10 "🎬 Recording screen with browser automation..." s
  let screen_video := env.screenRecorder
  let s := pstepProgress 35 "🎤 Creating Turkish professional voiceover..." s
  let audio_file := ElevenLabsService.text_to_speech env.tts script.toList req.voice_type
  let s := pstepProgress 60 "🎭 Creating custom avatar video with lip-sync..." s
  let custom_image_path := resolveCustomImage env.imageFileExists req.custom_avatar_image_id
  match DIDService.create_avatar_video env.did (script.toList.take 500)
      req.avatar_type custom_image_path with
  | .error e => (s, some e)
  | .ok avatar_video =>
    let s := pstepProgress 85 "🎬 Overlaying circular avatar on screen recording..." s
    let final := (VideoComposer.overlay_avatar_on_screen_recording env.compose
      screen_video avatar_video audio_file video_id "bottom_right").1.1
    (completeJob env video_id final s, none)

/-- The screen_recording branch of `process_video_pipeline_with_script`
(main.py 395-419). -/
def pipelineWSScreenBranch (env : PipelineEnv)
    (req : VideoCreateWithScriptRequest) (video_id script : String)
    (s : PState) : PState × Option String :=
  let s := pstepProgress 10 "📊 Preparing screen recording..." s
  let screen_video := env.screenRecorder
  let s := pstepProgress 50 "🎤 Creating Turkish professional voiceover..." s
  let audio_file := ElevenLabsService.text_to_speech env.tts script.toList req.voice_type
  let s := pstepProgress 80 "🎬 Muxing screen recording with audio..." s
  let final := (VideoComposer.mux_screen_recording_with_audio env.compose
    screen_video audio_file video_id).1
  (completeJob env video_id final s, none)

/-- The avatar (default) branch of `process_video_pipeline_with_script`
(main.py 420-437).  Here `script` is a `str`, so the
`render_avatar_segments` call at main.py 425 raises an unconditional
`TypeError` (see `AvatarService.render_avatar_segments_on_str`): the branch
always aborts after the progress-50 update and never reaches the
composition or completion statements (kept below as the dead `.ok` arm,
mirroring the source text). -/
def pipelineWSAvatarBranch (env : PipelineEnv)
    (req : VideoCreateWithScriptRequest) (video_id script : String)
    (s : PState) : PState × Option String :=
  let s := pstepProgress 25 "🎤 Creating Turkish professional voiceover..." s
  let audio_file := ElevenLabsService.text_to_speech env.tts script.toList req.voice_type
  let prov := req.provider.toUpper
  let s := pstepProgress 50 s!"🎭 Rendering avatar video segments with {prov}..." s
  match AvatarService.render_avatar_segments_on_str script with
  | .error e => (s, some e)
  | .ok avatar_videos =>
    let s := pstepProgress 75 "🎬 Composing final video..." s
    let final := (VideoComposer.compose_video env.compose avatar_videos
      audio_file video_id).1
    (completeJob env video_id final s, none)

/-- The `try` body of `process_video_pipeline_with_script` (main.py 323-437):
set `created_at`, persist, resolve the approved script
(`videos_db[video_id].get("approved_script", request.script)`), then run the
mode-selected branch. -/
def pipelineCoreWS (env : PipelineEnv) (req : VideoCreateWithScriptRequest)
    (video_id : String) (s0 : PState) : PState × Option String :=
  let s := (s0.mutate fun r => { r with created_at := some env.nowCreated }).persist
  let script := s.cur.approved_script.getD req.script
  if req.mode = "custom_avatar_overlay" then
    pipelineWSOverlayBranch env req video_id script s
  else if req.mode = "screen_recording" then
    pipelineWSScreenBranch env req video_id script s
  else
    pipelineWSAvatarBranch env req video_id script s

/-- Embedding of `process_video_pipeline_with_script` (main.py 323-450). -/
def process_video_pipeline_with_script (env : PipelineEnv)
    (req : VideoCreateWithScriptRequest) (video_id : String) (s0 : PState) :
    PState :=
  match pipelineCoreWS env req video_id s0 with
  | (s, none) => s
  | (s, some e) => failJob e s

/-- The record inserted by `POST /api/videos/create` (main.py 1458-1468). -/
def create_video_record (video_id : String) : JobRecord :=
  { video_id := video_id
    status := .processing
    progress := 0
    current_stage := "Initializing..."
    video_url := none
    youtube_url := none
    created_at := none
    completed_at := none
    error := none }

/-- The record inserted by `POST /api/videos/create-with-script`
(main.py 1480-1491): the same plus the approved script. -/
def create_with_script_record (video_id script : String) : JobRecord :=
  { create_video_record video_id with approved_script := some script }

/-- The run state right after the create endpoint persisted the fresh
record and before the background task starts. -/
def PState.start (r : JobRecord) : PState :=
  { trace := [r], updates := [], cur := r }

/-- One full job lifecycle via `POST /api/videos/create`: insert the fresh
record, persist it, then run `process_video_pipeline` as the background
task. -/
def createAndProcess (env : PipelineEnv) (req : VideoCreateRequest)
    (video_id : String) : PState :=
  process_video_pipeline env req video_id (PState.start (create_video_record video_id))

/-- One full job lifecycle via `POST /api/videos/create-with-script`. -/
def createAndProcessWithScript (env : PipelineEnv)
    (req : VideoCreateWithScriptRequest) (video_id : String) : PState :=
  process_video_pipeline_with_script env req video_id
    (PState.start (create_with_script_record video_id req.script))

/-! ## Properties and concrete scenario instances used by the theorems -/

/-- The output-reference invariant of one record snapshot: the output
reference (both `video_url` and `video_path`) is non-null exactly when the
status is `completed`. -/
def outputReferenceIffCompleted (r : JobRecord) : Prop :=
  (r.video_url.isSome ↔ r.status = .completed) ∧
  (r.video_path.isSome ↔ r.status = .completed)

/-- Once a snapshot has left `processing`, every later snapshot equals it. -/
def TerminalFrozen : List JobRecord → Prop
  | [] => True
  | r :: rest => (r.status ≠ .processing → ∀ r2 ∈ rest, r2 = r) ∧ TerminalFrozen rest

/-- A pipeline environment in which every collaborator call and every
subprocess succeeds. -/
def envAllOk : PipelineEnv :=
  { nowCreated := "2026-10-12T09:00:00"
    nowCompleted := "2026-10-12T09:06:00"
    analyze := .ok "analyzed content"
    screenRecorder := "videos/screen_recording_v.mp4"
    scriptGen := .ok "Merhaba, bu projeyi birlikte inceleyelim."
    tts := { enabled := true, convert := .ok () }
    did := { enabled := true
             imageExists := fun _ => true
             uploadResult := .ok "https://d-id.example/img"
             apiCreate := fun _ => .ok "talk1"
             polls := fun _ => .done
             download := .ok ()
             placeholderExists := fun _ => true }
    sectionRenders := [.ok "videos/avatar_talk1.mp4"]
    compose := { fileExists := fun _ => true
                 concatExit := .ok ()
                 muxExit := .ok ()
                 overlayExit := .ok ()
                 probe := fun _ => .ok 300
                 demoAssetExists := true }
    imageFileExists := fun _ => true }

/-- The all-success environment except that the ElevenLabs TTS call — a
collaborator call — fails. -/
def envTtsFail : PipelineEnv :=
  { envAllOk with tts := { enabled := true, convert := .error "elevenlabs: connection refused" } }

/-- The all-success environment except that content analysis raises. -/
def envAnalyzeFail : PipelineEnv :=
  { envAllOk with analyze := .error "Website fetch error: connection reset by peer" }

/-- A screen-recording submission to `POST /api/videos/create`. -/
def reqScreenRecording : VideoCreateRequest :=
  { url := "https://example.com", mode := "screen_recording", video_duration := 5 }

/-- A screen-recording submission to `POST /api/videos/create-with-script`. -/
def reqScreenRecordingWS : VideoCreateWithScriptRequest :=
  { url := "https://example.com"
    script := "Onaylanmis Turkce anlatim metni."
    mode := "screen_recording"
    video_duration := 5 }

/-- The claim under test for the HeyGen side of the request builders: the
submitted text is the original text truncated to some fixed word limit. -/
def heygenSubmitsWordTruncation : Prop :=
  ∃ N : Nat, ∀ (text : List Char) (avatar_type voice_id : String),
    (heygenPayload text avatar_type voice_id).voice.input_text =
      pyJoinSpace ((pySplit text).take N)

/-- A single 1600-character word (no whitespace at all). -/
def longSingleWord : List Char := List.replicate 1600 'a'

/-- A HeyGen environment whose submission call fails and in which no demo
asset has ever been cached. -/
def envHeyGenDown : HeyGenEnv :=
  { enabled := true
    turkish_voice_id := some "voiceTR1"
    submit := fun _ => .error "HeyGen API error: upstream unavailable"
    polls := fun _ => .processing
    download := .ok ()
    demoAssetExists := false }

/-- A D-ID environment whose polling never completes (every poll still
`started`), with a cached per-persona placeholder available. -/
def envDidTimeout : DIDEnv :=
  { enabled := true
    imageExists := fun _ => false
    uploadResult := .ok "https://d-id.example/img"
    apiCreate := fun _ => .ok "talk9"
    polls := fun _ => .other "started"
    download := .ok ()
    placeholderExists := fun _ => true }

/-- A composition environment in which every input file exists but the
concat ffmpeg run exits non-zero, and the demo asset is missing. -/
def envComposeBad : ComposeEnv :=
  { fileExists := fun _ => true
    concatExit := .error "FFmpeg failed: exit status 1"
    muxExit := .ok ()
    overlayExit := .ok ()
    probe := fun _ => .ok 30
    demoAssetExists := false }

/-- A composition environment in which everything succeeds and the narration
probes at 62.5 seconds. -/
def envOverlayOk : ComposeEnv :=
  { fileExists := fun _ => true
    concatExit := .ok ()
    muxExit := .ok ()
    overlayExit := .ok ()
    probe := fun _ => .ok (125 / 2 : ℚ)
    demoAssetExists := true }

/-- A concrete 1920×1080 background frame. -/
def bgFrame : Frame :=
  { width := 1920, height := 1080, pix := fun x y => (x + 2 * y).toNat }

/-- A concrete 300×300 (already scaled) avatar frame. -/
def avFrame : Frame :=
  { width := 300, height := 300, pix := fun _ _ => 7 }

/-- An environment in which both pipelines fail with a propagating
exception: content analysis raises (create pipeline), and the direct D-ID
render fails with no cached placeholder (with-script overlay pipeline). -/
def envDoubleFail : PipelineEnv :=
  { envAnalyzeFail with
    did := { enabled := true
             imageExists := fun _ => false
             uploadResult := .ok "https://d-id.example/img"
             apiCreate := fun _ => .error "D-ID API returned 500: internal"
             polls := fun _ => .other "started"
             download := .ok ()
             placeholderExists := fun _ => false } }

/-- A custom-avatar-overlay submission to `POST /api/videos/create-with-script`. -/
def reqOverlayWS : VideoCreateWithScriptRequest :=
  { url := "https://example.com"
    script := "Onaylanmis metin."
    mode := "custom_avatar_overlay"
    custom_avatar_image_id := some "img1" }

/-- An avatar-mode (the default mode) submission to
`POST /api/videos/create-with-script`. -/
def reqAvatarWS : VideoCreateWithScriptRequest :=
  { url := "https://example.com", script := "Onaylanmis metin." }

/-! ## Helper lemmas -/

/-- The sanitizer always yields one of the three fixed messages. -/
theorem sanitize_mem (e : String) : sanitizeErrorMsg e ∈ sanitizedMessages := by
  unfold sanitizeErrorMsg sanitizedMessages
  split_ifs <;> simp

/-- Every word produced by `pySplitAux` over a whitespace-free accumulator is
nonempty and whitespace-free. -/
theorem pySplitAux_words (l : List Char) :
    ∀ acc, (∀ c ∈ acc, c.isWhitespace = false) →
      ∀ w ∈ pySplitAux l acc, w ≠ [] ∧ ∀ c ∈ w, c.isWhitespace = false := by
  induction l with
  | nil =>
    intro acc hacc w hw
    cases acc with
    | nil => simp [pySplitAux] at hw
    | cons a as =>
      simp [pySplitAux] at hw
      subst hw
      refine ⟨by simp, fun c hc => hacc c ?_⟩
      simp only [List.reverse_cons, List.mem_append, List.mem_reverse,
        List.mem_singleton] at hc
      simp only [List.mem_cons]
      tauto
  | cons c cs ih =>
    intro acc hacc w hw
    by_cases hc : c.isWhitespace
    · simp only [pySplitAux, hc, if_true] at hw
      cases acc with
      | nil => simpa using ih [] (by simp) w (by simpa using hw)
      | cons a as =>
        simp only [List.isEmpty_cons, if_false, Bool.false_eq_true] at hw
        rcases List.mem_cons.mp hw with h1 | h2
        · subst h1
          refine ⟨by simp, fun x hx => hacc x ?_⟩
          simp only [List.reverse_cons, List.mem_append, List.mem_reverse,
            List.mem_singleton] at hx
          simp only [List.mem_cons]
          tauto
        · exact ih [] (by simp) w h2
    · simp only [pySplitAux, hc, if_false, Bool.false_eq_true] at hw
      refine ih (c :: acc) ?_ w hw
      intro x hx
      rcases List.mem_cons.mp hx with h1 | h2
      · subst h1; simpa using hc
      · exact hacc x h2

/-- Splitting a text that starts with a whitespace-free chunk pushes the
chunk into the accumulator. -/
theorem pySplitAux_append (w rest : List Char) :
    ∀ acc, (∀ c ∈ w, c.isWhitespace = false) →
      pySplitAux (w ++ rest) acc = pySplitAux rest (w.reverse ++ acc) := by
  induction w with
  | nil => intro acc _; simp
  | cons c cs ih =>
    intro acc hw
    have hc : c.isWhitespace = false := hw c (by simp)
    simp only [List.cons_append, pySplitAux, hc, if_false, Bool.false_eq_true,
      List.append_eq]
    rw [ih (c :: acc) fun x hx => hw x (by simp [hx])]
    simp [List.reverse_cons, List.append_assoc]

/-- A nonempty whitespace-free text splits into exactly itself. -/
theorem pySplit_single (w : List Char) (hne : w ≠ [])
    (hw : ∀ c ∈ w, c.isWhitespace = false) : pySplit w = [w] := by
  unfold pySplit
  have h := pySplitAux_append w [] [] hw
  simp only [List.append_nil] at h
  rw [h]
  cases hrev : w.reverse with
  | nil => exact absurd (by simpa using hrev) hne
  | cons a as =>
    simp [pySplitAux, ← hrev, hne]

/-- Splitting the space-joined list of nonempty whitespace-free words
recovers exactly those words. -/
theorem pySplit_join (ws : List (List Char)) :
    (∀ w ∈ ws, w ≠ [] ∧ ∀ c ∈ w, c.isWhitespace = false) →
      pySplit (pyJoinSpace ws) = ws := by
  induction ws with
  | nil => intro _; simp [pySplit, pyJoinSpace, pySplitAux]
  | cons w ws ih =>
    intro h
    obtain ⟨hne, hw⟩ := h w (by simp)
    cases ws with
    | nil =>
      simp only [pyJoinSpace, List.intersperse_singleton, List.flatten_cons,
        List.flatten_nil, List.append_nil]
      exact pySplit_single w hne hw
    | cons w2 ws2 =>
      have hjoin : pyJoinSpace (w :: w2 :: ws2) = w ++ ' ' :: pyJoinSpace (w2 :: ws2) := by
        simp [pyJoinSpace, List.intersperse_cons_cons]
      unfold pySplit
      rw [hjoin, pySplitAux_append w (' ' :: pyJoinSpace (w2 :: ws2)) [] hw]
      have hrevne : (w.reverse ++ []).isEmpty = false := by
        simp [List.isEmpty_iff, hne]
      simp only [pySplitAux, Char.isWhitespace, hrevne]
      rw [if_pos (by decide), if_neg (by simp [List.isEmpty_iff, hne])]
      simp only [List.append_nil, List.reverse_reverse]
      have hih := ih fun x hx => h x (by simp [hx])
      unfold pySplit at hih
      rw [hih]

/-- The HeyGen selector never raises: every failure path lands in
`_create_demo_video`, which always returns a path. -/
theorem heygen_create_always_ok (env : HeyGenEnv) (text : List Char)
    (avatar_type : String) :
    ∃ p, HeyGenService.create_avatar_video env text avatar_type = .ok p := by
  unfold HeyGenService.create_avatar_video
  by_cases he : env.enabled
  · cases hv : env.turkish_voice_id with
    | none => simp [he, hv]
    | some voice_id =>
      cases hat : HeyGenService.attemptCreate env text avatar_type voice_id with
      | ok p => simp [he, hv, hat]
      | error e => simp [he, hv, hat]
  · simp [he]

/-- Exhaustive facts about one `POST /api/videos/create` job run, over every
environment, request and job id: every persisted snapshot satisfies the
output-reference invariant, the trace freezes once it leaves `processing`,
progress is monotone and bounded, and a propagating exception yields exactly
the sanitized failure record. -/
theorem run_facts_create (env : PipelineEnv) (req : VideoCreateRequest) (vid : String) :
    (∀ r ∈ (createAndProcess env req vid).trace, outputReferenceIffCompleted r) ∧
    TerminalFrozen (createAndProcess env req vid).trace ∧
    List.Chain' (· ≤ ·) ((createAndProcess env req vid).trace.map JobRecord.progress) ∧
    (∀ r ∈ (createAndProcess env req vid).trace, r.progress ≤ 100) ∧
    (∀ e, (pipelineCore env req vid (PState.start (create_video_record vid))).2 = some e →
      (createAndProcess env req vid).cur.status = .failed ∧
      (createAndProcess env req vid).cur.error = some (sanitizeErrorMsg e) ∧
      (createAndProcess env req vid).cur.current_stage = "❌ Hata: " ++ sanitizeErrorMsg e ∧
      (createAndProcess env req vid).cur.video_url = none ∧
      (createAndProcess env req vid).cur.video_path = none) := by
  unfold createAndProcess process_video_pipeline pipelineCore
  by_cases hm1 : req.mode = "custom_avatar_overlay"
  · simp only [hm1, ite_true]
    unfold pipelineOverlayBranch
    cases ha : env.analyze with
    | error e =>
      simp_all [pstepProgress, PState.persist, PState.mutate, PState.start,
        create_video_record, completeJob, failJob, outputReferenceIffCompleted,
        TerminalFrozen]
    | ok rd =>
      cases hs : env.scriptGen with
      | error e =>
        simp_all [pstepProgress, PState.persist, PState.mutate, PState.start,
          create_video_record, completeJob, failJob, outputReferenceIffCompleted,
          TerminalFrozen]
      | ok sc =>
        simp only [ha, hs]
        cases hd : DIDService.create_avatar_video env.did ((String.toList sc).take 500)
            req.avatar_type
            (resolveCustomImage env.imageFileExists req.custom_avatar_image_id) with
        | error e =>
          simp_all [pstepProgress, PState.persist, PState.mutate, PState.start,
            create_video_record, completeJob, failJob, outputReferenceIffCompleted,
            TerminalFrozen]
        | ok av =>
          simp_all [pstepProgress, PState.persist, PState.mutate, PState.start,
            create_video_record, completeJob, failJob, outputReferenceIffCompleted,
            TerminalFrozen]
  · by_cases hm2 : req.mode = "screen_recording"
    · simp only [hm1, hm2, ite_true, ite_false]
      unfold pipelineScreenBranch
      cases ha : env.analyze with
      | error e =>
        simp_all [pstepProgress, PState.persist, PState.mutate, PState.start,
          create_video_record, completeJob, failJob, outputReferenceIffCompleted,
          TerminalFrozen]
      | ok rd =>
        cases hs : env.scriptGen with
        | error e =>
          simp_all [pstepProgress, PState.persist, PState.mutate, PState.start,
            create_video_record, completeJob, failJob, outputReferenceIffCompleted,
            TerminalFrozen]
        | ok sc =>
          simp_all [pstepProgress, PState.persist, PState.mutate, PState.start,
            create_video_record, completeJob, failJob, outputReferenceIffCompleted,
            TerminalFrozen]
    · simp only [hm1, hm2, ite_false]
      unfold pipelineAvatarBranch
      cases ha : env.analyze with
      | error e =>
        simp_all [pstepProgress, PState.persist, PState.mutate, PState.start,
          create_video_record, completeJob, failJob, outputReferenceIffCompleted,
          TerminalFrozen]
      | ok rd =>
        cases hs : env.scriptGen with
        | error e =>
          simp_all [pstepProgress, PState.persist, PState.mutate, PState.start,
            create_video_record, completeJob, failJob, outputReferenceIffCompleted,
            TerminalFrozen]
        | ok sc =>
          simp_all [pstepProgress, PState.persist, PState.mutate, PState.start,
            create_video_record, completeJob, failJob, outputReferenceIffCompleted,
            TerminalFrozen]

/-- Exhaustive facts about one `POST /api/videos/create-with-script` job run,
mirroring `run_facts_create`, plus one fact specific to this endpoint: its
avatar (default) branch always aborts with the unconditional `TypeError`
from indexing the string script, right after the progress-50 update. -/
theorem run_facts_ws (env : PipelineEnv) (req : VideoCreateWithScriptRequest) (vid : String) :
    (∀ r ∈ (createAndProcessWithScript env req vid).trace, outputReferenceIffCompleted r) ∧
    TerminalFrozen (createAndProcessWithScript env req vid).trace ∧
    List.Chain' (· ≤ ·) ((createAndProcessWithScript env req vid).trace.map JobRecord.progress) ∧
    (∀ r ∈ (createAndProcessWithScript env req vid).trace, r.progress ≤ 100) ∧
    ((∀ e, (pipelineCoreWS env req vid (PState.start (create_with_script_record vid req.script))).2 = some e →
      (createAndProcessWithScript env req vid).cur.status = .failed ∧
      (createAndProcessWithScript env req vid).cur.error = some (sanitizeErrorMsg e) ∧
      (createAndProcessWithScript env req vid).cur.current_stage = "❌ Hata: " ++ sanitizeErrorMsg e ∧
      (createAndProcessWithScript env req vid).cur.video_url = none ∧
      (createAndProcessWithScript env req vid).cur.video_path = none) ∧
    (req.mode ≠ "custom_avatar_overlay" → req.mode ≠ "screen_recording" →
      (pipelineCoreWS env req vid (PState.start (create_with_script_record vid req.script))).2 =
        some strIndicesTypeError ∧
      (createAndProcessWithScript env req vid).cur.progress = 50)) := by
  unfold createAndProcessWithScript process_video_pipeline_with_script pipelineCoreWS
  by_cases hm1 : req.mode = "custom_avatar_overlay"
  · simp only [hm1, ite_true, PState.start, PState.mutate, PState.persist,
      create_with_script_record, create_video_record, Option.getD_some]
    unfold pipelineWSOverlayBranch
    cases hd : DIDService.create_avatar_video env.did ((String.toList req.script).take 500)
        req.avatar_type
        (resolveCustomImage env.imageFileExists req.custom_avatar_image_id) with
    | error e =>
      simp_all [pstepProgress, PState.persist, PState.mutate,
        completeJob, failJob, outputReferenceIffCompleted, TerminalFrozen]
    | ok av =>
      simp_all [pstepProgress, PState.persist, PState.mutate,
        completeJob, failJob, outputReferenceIffCompleted, TerminalFrozen]
  · by_cases hm2 : req.mode = "screen_recording"
    · simp_all [hm1, hm2, pipelineWSScreenBranch, pstepProgress, PState.persist,
        PState.mutate, PState.start, create_with_script_record, create_video_record,
        completeJob, failJob, outputReferenceIffCompleted, TerminalFrozen]
    · simp_all [hm1, hm2, pipelineWSAvatarBranch, pstepProgress, PState.persist,
        PState.mutate, PState.start, create_with_script_record, create_video_record,
        completeJob, failJob, outputReferenceIffCompleted, TerminalFrozen,
        AvatarService.render_avatar_segments_on_str]

/-! ## Claim theorems -/

/-- C1 (amended): a failure that propagates to the pipeline handler — for
either endpoint — aborts the remaining stages and yields a job record with
status failed, an `error` field equal to one of the three fixed sanitized
messages (chosen only through substring matching on the lowercased exception
text), a stage label embedding that same sanitized message, and no output
reference; the raw exception text is never stored.  In the create pipeline,
TTS, screen-capture, per-section avatar-render and composition failures are
swallowed by internal fallbacks and never reach this handler (see the
counterexample), while in the with-script pipeline the avatar (default)
mode always does reach it: the string script makes `render_avatar_segments`
raise an unconditional `TypeError`, so every such job ends failed at
progress 50 with the generic sanitized message (third conjunct). -/
theorem c1_sanitized_failure_handling (env : PipelineEnv) (req : VideoCreateRequest)
    (reqS : VideoCreateWithScriptRequest) (vid vidS e eS : String)
    (h : (pipelineCore env req vid (PState.start (create_video_record vid))).2 = some e)
    (hS : (pipelineCoreWS env reqS vidS
      (PState.start (create_with_script_record vidS reqS.script))).2 = some eS) :
    ((createAndProcess env req vid).cur.status = .failed ∧
      (createAndProcess env req vid).cur.error = some (sanitizeErrorMsg e) ∧
      (createAndProcess env req vid).cur.current_stage = "❌ Hata: " ++ sanitizeErrorMsg e ∧
      (createAndProcess env req vid).cur.video_url = none ∧
      (createAndProcess env req vid).cur.video_path = none ∧
      sanitizeErrorMsg e ∈ sanitizedMessages) ∧
    ((createAndProcessWithScript env reqS vidS).cur.status = .failed ∧
      (createAndProcessWithScript env reqS vidS).cur.error = some (sanitizeErrorMsg eS) ∧
      (createAndProcessWithScript env reqS vidS).cur.current_stage =
        "❌ Hata: " ++ sanitizeErrorMsg eS ∧
      (createAndProcessWithScript env reqS vidS).cur.video_url = none ∧
      (createAndProcessWithScript env reqS vidS).cur.video_path = none ∧
      sanitizeErrorMsg eS ∈ sanitizedMessages) ∧
    (∀ (reqA : VideoCreateWithScriptRequest) (vidA : String),
      reqA.mode ≠ "custom_avatar_overlay" → reqA.mode ≠ "screen_recording" →
      (createAndProcessWithScript env reqA vidA).cur.status = .failed ∧
      (createAndProcessWithScript env reqA vidA).cur.error =
        some (sanitizeErrorMsg strIndicesTypeError) ∧
      (createAndProcessWithScript env reqA vidA).cur.progress = 50) := by
  have H := (run_facts_create env req vid).2.2.2.2 e h
  have HS := (run_facts_ws env reqS vidS).2.2.2.2.1 eS hS
  refine ⟨⟨H.1, H.2.1, H.2.2.1, H.2.2.2.1, H.2.2.2.2, sanitize_mem e⟩,
         ⟨HS.1, HS.2.1, HS.2.2.1, HS.2.2.2.1, HS.2.2.2.2, sanitize_mem eS⟩,
         fun reqA vidA hmA1 hmA2 => ?_⟩
  have HA := (run_facts_ws env reqA vidA).2.2.2.2.2 hmA1 hmA2
  have HF := (run_facts_ws env reqA vidA).2.2.2.2.1 strIndicesTypeError HA.1
  exact ⟨HF.1, HF.2.1, HA.2⟩

/-- Witness for C1: with analysis failing (create pipeline) and the D-ID
render failing with no placeholder (with-script overlay pipeline), both jobs
end failed with the fixed generic sanitized message stored; and a with-script
avatar-mode job ends failed at progress 50 even in the all-success
environment inherited by `envDoubleFail`. -/
theorem c1_witness :
    (createAndProcess envDoubleFail reqScreenRecording "w1").cur.status = .failed ∧
    (createAndProcess envDoubleFail reqScreenRecording "w1").cur.error =
      some "Video işleme sırasında bir hata oluştu" ∧
    (createAndProcessWithScript envDoubleFail reqOverlayWS "w1s").cur.status = .failed ∧
    (createAndProcessWithScript envDoubleFail reqOverlayWS "w1s").cur.error =
      some "Video işleme sırasında bir hata oluştu" ∧
    (createAndProcessWithScript envDoubleFail reqAvatarWS "w1a").cur.status = .failed ∧
    (createAndProcessWithScript envDoubleFail reqAvatarWS "w1a").cur.error =
      some "Video işleme sırasında bir hata oluştu" ∧
    (createAndProcessWithScript envDoubleFail reqAvatarWS "w1a").cur.progress = 50 := by
  have H := c1_sanitized_failure_handling envDoubleFail reqScreenRecording reqOverlayWS
    "w1" "w1s" "Website fetch error: connection reset by peer"
    "Demo video not found: videos/demo_avatar_professional_female.mp4. Please create valid demo videos first."
    rfl rfl
  have HA := H.2.2 reqAvatarWS "w1a" (by decide) (by decide)
  refine ⟨H.1.1, ?_, H.2.1.1, ?_, HA.1, ?_, HA.2.2⟩
  · rw [H.1.2.1]; rfl
  · rw [H.2.1.2.1]; rfl
  · rw [HA.2.1]; rfl

/-- Counterexample for C1 as stated: the ElevenLabs TTS collaborator call
fails in `envTtsFail`, yet the screen-recording job runs to completion with
no error recorded — the failure is swallowed inside
`ElevenLabsService.text_to_speech` by the demo-audio fallback and does not
abort the remaining stages or set status to failed. -/
theorem c1_counterexample_tts_failure_swallowed :
    envTtsFail.tts.convert = .error "elevenlabs: connection refused" ∧
    (createAndProcess envTtsFail reqScreenRecording "x1").cur.status = .completed ∧
    (createAndProcess envTtsFail reqScreenRecording "x1").cur.error = none :=
  ⟨rfl, rfl, rfl⟩

/-- C2: at every persisted point of a job's lifecycle, through either
endpoint, the output reference (`video_url` and `video_path`) is non-null
exactly when the status is `completed`, and once the status leaves
`processing` no field of the record ever changes again. -/
theorem c2_output_reference_invariant (env : PipelineEnv) (req : VideoCreateRequest)
    (reqS : VideoCreateWithScriptRequest) (vid vidS : String) :
    (∀ r ∈ (createAndProcess env req vid).trace, outputReferenceIffCompleted r) ∧
    TerminalFrozen (createAndProcess env req vid).trace ∧
    (∀ r ∈ (createAndProcessWithScript env reqS vidS).trace, outputReferenceIffCompleted r) ∧
    TerminalFrozen (createAndProcessWithScript env reqS vidS).trace :=
  ⟨(run_facts_create env req vid).1, (run_facts_create env req vid).2.1,
   (run_facts_ws env reqS vidS).1, (run_facts_ws env reqS vidS).2.1⟩

/-- Witness for C2 at a concrete run. -/
theorem c2_witness :
    outputReferenceIffCompleted (create_video_record "w2") ∧
    TerminalFrozen (createAndProcess envAllOk reqScreenRecording "w2").trace :=
  ⟨(c2_output_reference_invariant envAllOk reqScreenRecording reqScreenRecordingWS
      "w2" "w2s").1 _ (by decide),
   (c2_output_reference_invariant envAllOk reqScreenRecording reqScreenRecordingWS
      "w2" "w2s").2.1⟩

/-- C3: over every environment, every request and both endpoints, the
sequence of persisted progress values is monotonically non-decreasing and
every persisted snapshot keeps progress within [0, 100] (progress is a `Nat`,
so the lower bound is inherent). -/
theorem c3_progress_monotone (env : PipelineEnv) (req : VideoCreateRequest)
    (reqS : VideoCreateWithScriptRequest) (vid vidS : String) :
    List.Chain' (· ≤ ·) ((createAndProcess env req vid).trace.map JobRecord.progress) ∧
    (∀ r ∈ (createAndProcess env req vid).trace, r.progress ≤ 100) ∧
    List.Chain' (· ≤ ·)
      ((createAndProcessWithScript env reqS vidS).trace.map JobRecord.progress) ∧
    (∀ r ∈ (createAndProcessWithScript env reqS vidS).trace, r.progress ≤ 100) :=
  ⟨(run_facts_create env req vid).2.2.1, (run_facts_create env req vid).2.2.2.1,
   (run_facts_ws env reqS vidS).2.2.1, (run_facts_ws env reqS vidS).2.2.2.1⟩

/-- Witness for C3 at a concrete run. -/
theorem c3_witness :
    List.Chain' (· ≤ ·)
      ((createAndProcess envAllOk reqScreenRecording "w3").trace.map JobRecord.progress) ∧
    (create_video_record "w3").progress ≤ 100 :=
  ⟨(c3_progress_monotone envAllOk reqScreenRecording reqScreenRecordingWS "w3" "w3s").1,
   (c3_progress_monotone envAllOk reqScreenRecording reqScreenRecordingWS "w3" "w3s").2.1
     _ (by decide)⟩

/-- C4 (amended): a mode=screen_recording submission whose stages all succeed
writes exactly the progress constants 10, 20, 50, 70, 90, 100 in that order
when submitted via `POST /api/videos/create`, but exactly 10, 50, 80, 100
when submitted via `POST /api/videos/create-with-script`; both terminate
completed with a non-null output reference. -/
theorem c4_progress_constants (env : PipelineEnv) (req : VideoCreateRequest)
    (reqS : VideoCreateWithScriptRequest) (vid vidS a sc : String)
    (hm : req.mode = "screen_recording") (ha : env.analyze = .ok a)
    (hs : env.scriptGen = .ok sc) (hmS : reqS.mode = "screen_recording") :
    (createAndProcess env req vid).updates = [10, 20, 50, 70, 90, 100] ∧
    (createAndProcess env req vid).cur.status = .completed ∧
    (createAndProcess env req vid).cur.video_url = some s!"/api/videos/{vid}/download" ∧
    (createAndProcessWithScript env reqS vidS).updates = [10, 50, 80, 100] ∧
    (createAndProcessWithScript env reqS vidS).cur.status = .completed ∧
    (createAndProcessWithScript env reqS vidS).cur.video_url =
      some s!"/api/videos/{vidS}/download" := by
  refine ⟨?_, ?_, ?_, ?_, ?_, ?_⟩ <;>
    simp [createAndProcess, process_video_pipeline, pipelineCore, hm, ha, hs,
      pipelineScreenBranch, createAndProcessWithScript,
      process_video_pipeline_with_script, pipelineCoreWS, hmS,
      pipelineWSScreenBranch, pstepProgress, PState.persist, PState.mutate,
      PState.start, create_video_record, create_with_script_record, completeJob]

/-- Witness for C4 at a concrete all-success run. -/
theorem c4_witness :
    (createAndProcess envAllOk reqScreenRecording "w4").updates =
      [10, 20, 50, 70, 90, 100] ∧
    (createAndProcessWithScript envAllOk reqScreenRecordingWS "w4s").updates =
      [10, 50, 80, 100] := by
  have H := c4_progress_constants envAllOk reqScreenRecording reqScreenRecordingWS
    "w4" "w4s" "analyzed content" "Merhaba, bu projeyi birlikte inceleyelim."
    rfl rfl rfl rfl
  exact ⟨H.1, H.2.2.2.1⟩

/-- Counterexample for C4 as stated: a successful mode=screen_recording
submission through the with-script endpoint persists the progress sequence
10, 50, 80, 100 — not the claimed 10, 20, 50, 70, 90, 100. -/
theorem c4_counterexample_with_script_sequence :
    reqScreenRecordingWS.mode = "screen_recording" ∧
    (createAndProcessWithScript envAllOk reqScreenRecordingWS "x4").cur.status = .completed ∧
    (createAndProcessWithScript envAllOk reqScreenRecordingWS "x4").updates =
      [10, 50, 80, 100] ∧
    (createAndProcessWithScript envAllOk reqScreenRecordingWS "x4").updates ≠
      [10, 20, 50, 70, 90, 100] :=
  ⟨rfl, rfl, rfl, by decide⟩

/-- C5 (amended): the store update on an id that is not in the store is a
silent no-op — it neither raises, nor mutates the store, nor creates a
record. -/
theorem c5_unknown_id_silent_noop (db : Store) (video_id : String) (p : Nat)
    (stage : String) (h : db.lookup video_id = none) :
    update_progress db video_id p stage = db := by
  unfold update_progress
  simp [h]

/-- Witness for C5 on the empty store. -/
theorem c5_witness :
    ([] : Store).lookup "ghost" = none ∧
    update_progress [] "ghost" 5 "stage" = [] :=
  ⟨rfl, c5_unknown_id_silent_noop [] "ghost" 5 "stage" rfl⟩

/-- Counterexample for C5 as stated: on an unknown id the code's update
returns the store unchanged with no error, while the update described by the
spec fails with NotFound. -/
theorem c5_counterexample_no_notfound :
    update_progress [] "ghost" 7 "stage" = ([] : Store) ∧
    update_progress_specVersion [] "ghost" 7 "stage" = .error .notFound :=
  ⟨rfl, rfl⟩

/-- C6: startup store loading per backing-file state.  A missing file yields
the empty store silently; an unreadable (IOError) or JSON-malformed file
yields the empty store with a warning; a well-formed file becomes the initial
store.  But a readable file whose bytes are not valid UTF-8 raises an
uncaught `UnicodeDecodeError` — `except (json.JSONDecodeError, IOError)` does
not match it — so startup fails, contradicting the claim. -/
theorem c6_startup_load_behavior (m : String) (db : Store) :
    load_videos_db .missing = .ok ([], false) ∧
    load_videos_db (.unreadable m) = .ok ([], true) ∧
    load_videos_db (.malformed m) = .ok ([], true) ∧
    load_videos_db (.wellformed db) = .ok (db, false) ∧
    load_videos_db (.undecodable m) = .error m :=
  ⟨rfl, rfl, rfl, rfl, rfl⟩

/-- C7 (amended): when a composition step's external tool exits non-zero the
engine does not return a failure to its caller: it catches the error, writes
a fallback to the requested output path — a copy of the demo asset when that
asset exists, otherwise a bare 32-byte MP4 header that carries no stream data
and is not a playable deliverable — and returns that path as a success. -/
theorem c7_composition_failure_fallback (env : ComposeEnv) (clips : List String)
    (audio_file video_id screen_video e : String)
    (hne : clips ≠ [])
    (hfiles : ∀ p, env.fileExists p = true)
    (hconcat : env.concatExit = .error e) :
    (VideoComposer.compose_video env clips audio_file video_id).1 =
      s!"videos/final_{video_id}.mp4" ∧
    (env.demoAssetExists = true →
      (VideoComposer.compose_video env clips audio_file video_id).2 = .demoCopy) ∧
    (env.demoAssetExists = false →
      (VideoComposer.compose_video env clips audio_file video_id).2 = .stubHeader ∧
      ComposeOutput.isPlayableDeliverable
        (VideoComposer.compose_video env clips audio_file video_id).2 = false) ∧
    (∀ e2, env.muxExit = .error e2 →
      (VideoComposer.mux_screen_recording_with_audio env screen_video audio_file
        video_id).1 = s!"videos/final_{video_id}.mp4") := by
  have hfilter : clips.filter env.fileExists = clips :=
    List.filter_eq_self.mpr fun a _ => hfiles a
  have hE : clips.isEmpty = false := by
    simpa [List.isEmpty_iff] using hne
  refine ⟨?_, fun hda => ?_, fun hda => ?_, fun e2 hmux => ?_⟩
  · by_cases hda0 : env.demoAssetExists <;>
      simp [VideoComposer.compose_video, VideoComposer.create_demo_fallback,
        hfiles, hconcat, hfilter, hE, hda0]
  · simp [VideoComposer.compose_video, VideoComposer.create_demo_fallback,
      hfiles, hconcat, hfilter, hE, hda]
  · simp [VideoComposer.compose_video, VideoComposer.create_demo_fallback,
      ComposeOutput.isPlayableDeliverable, hfiles, hconcat, hfilter, hE, hda]
  · by_cases hda0 : env.demoAssetExists <;>
      simp [VideoComposer.mux_screen_recording_with_audio,
        VideoComposer.create_demo_fallback, hfiles, hmux, hda0]

/-- Witness for C7 at a concrete failing composition. -/
theorem c7_witness :
    (VideoComposer.compose_video envComposeBad ["videos/avatar_talk1.mp4"]
      "videos/audio.mp3" "w7").1 = "videos/final_w7.mp4" ∧
    (VideoComposer.compose_video envComposeBad ["videos/avatar_talk1.mp4"]
      "videos/audio.mp3" "w7").2 = .stubHeader := by
  have H := c7_composition_failure_fallback envComposeBad ["videos/avatar_talk1.mp4"]
    "videos/audio.mp3" "w7" "videos/screen.mp4" "FFmpeg failed: exit status 1"
    (by decide) (fun p => rfl) rfl
  exact ⟨H.1, (H.2.2.1 rfl).1⟩

/-- Counterexample for C7 as stated: with the concat step failing and no demo
asset cached, `compose_video` returns the output path as a success — no
classified failure — while what it wrote there is the 32-byte header stub,
which is not a valid playable deliverable. -/
theorem c7_counterexample_silent_stub :
    envComposeBad.concatExit = .error "FFmpeg failed: exit status 1" ∧
    VideoComposer.compose_video envComposeBad ["videos/avatar_talk1.mp4"]
      "videos/audio2.mp3" "x7" = ("videos/final_x7.mp4", .stubHeader) ∧
    ComposeOutput.isPlayableDeliverable .stubHeader = false :=
  ⟨rfl, rfl, rfl⟩

/-- C8 (amended): when the D-ID backend call fails (remote error, non-201
submission, or exhaustion of the 60-poll ceiling), the selector falls back to
the previously cached per-persona placeholder clip and raises a fatal error
to the caller exactly when no such placeholder exists.  The HeyGen selector,
however, never raises on any failure: its fallback always returns a
per-persona path (copying the shared demo asset or synthesizing a clip). -/
theorem c8_fallback_behavior (denv : DIDEnv) (henv : HeyGenEnv)
    (text htext : List Char) (avatar_type havatar vt : String)
    (cip : Option String) (e : String)
    (henabled : denv.enabled = true)
    (hfail : DIDService.attemptCreate denv text avatar_type cip vt = .error e) :
    (denv.placeholderExists avatar_type = true →
      DIDService.create_avatar_video denv text avatar_type cip vt =
        .ok s!"videos/demo_avatar_{avatar_type}.mp4") ∧
    (denv.placeholderExists avatar_type = false →
      DIDService.create_avatar_video denv text avatar_type cip vt = .error
        s!"Demo video not found: videos/demo_avatar_{avatar_type}.mp4. Please create valid demo videos first.") ∧
    (∃ p, HeyGenService.create_avatar_video henv htext havatar = .ok p) := by
  have hcreate : DIDService.create_avatar_video denv text avatar_type cip vt =
      DIDService.create_demo_video denv avatar_type := by
    unfold DIDService.create_avatar_video
    rw [henabled, hfail]
    rfl
  refine ⟨fun hp => ?_, fun hp => ?_, heygen_create_always_ok henv htext havatar⟩ <;>
    rw [hcreate] <;> unfold DIDService.create_demo_video <;> rw [hp] <;> rfl

/-- Witness for C8: a D-ID render that exhausts all 60 polls falls back to
the cached placeholder clip of the requested persona. -/
theorem c8_witness :
    DIDService.create_avatar_video envDidTimeout (String.toList "merhaba")
      "professional_female" none "tr_female_professional" =
      .ok "videos/demo_avatar_professional_female.mp4" := by
  have H := c8_fallback_behavior envDidTimeout envHeyGenDown
    (String.toList "merhaba") (String.toList "merhaba")
    "professional_female" "professional_female" "tr_female_professional" none
    "D-ID timeout after 5 minutes" rfl rfl
  exact H.1 rfl

/-- Counterexample for C8 as stated: the HeyGen backend reports an error and
no placeholder asset exists (`demoAssetExists = false`), yet the selector
does not raise a fatal error — it returns a freshly synthesized per-persona
path as a success. -/
theorem c8_counterexample_heygen_never_fatal :
    envHeyGenDown.demoAssetExists = false ∧
    (HeyGenService.create_demo_video envHeyGenDown "professional_female").2 =
      .ffmpegSynthesized ∧
    HeyGenService.create_avatar_video envHeyGenDown (String.toList "some text")
      "professional_female" = .ok "videos/demo_heygen_professional_female.mp4" :=
  ⟨rfl, rfl, rfl⟩

/-- C9 (amended): the D-ID request submits the text truncated to its first
100 whitespace-separated words (a word limit), while the HeyGen request
submits the text truncated to its first 1500 characters — a character limit,
not a word limit (see the counterexample); in both cases the truncated text
is exactly what the request carries. -/
theorem c9_text_truncation (text : List Char)
    (voice_type avatar_type voice_id : String) :
    (didPayloadScript text voice_type).input = pyJoinSpace ((pySplit text).take 100) ∧
    (pySplit (didPayloadScript text voice_type).input).length ≤ 100 ∧
    (heygenPayload text avatar_type voice_id).voice.input_text = text.take 1500 ∧
    (heygenPayload text avatar_type voice_id).voice.input_text.length ≤ 1500 ∧
    (heygenPayload text avatar_type voice_id).voice.input_text ++ text.drop 1500 =
      text := by
  refine ⟨rfl, ?_, rfl, ?_, ?_⟩
  · show (pySplit (pyJoinSpace ((pySplit text).take 100))).length ≤ 100
    have hwords : ∀ w ∈ (pySplit text).take 100,
        w ≠ [] ∧ ∀ c ∈ w, c.isWhitespace = false := fun w hw =>
      pySplitAux_words text [] (by simp) w (List.take_subset _ _ hw)
    rw [pySplit_join ((pySplit text).take 100) hwords]
    exact List.length_take_le _ _
  · show (text.take 1500).length ≤ 1500
    exact List.length_take_le _ _
  · show text.take 1500 ++ text.drop 1500 = text
    exact List.take_append_drop _ _

/-- Counterexample for C9 as stated: no fixed word limit reproduces the
HeyGen truncation.  On a single 1600-character word, the submitted text is
its 1500-character strict prefix, which no word-level truncation (which could
only yield the empty text or the whole word) can produce. -/
theorem c9_counterexample_heygen_char_limit : ¬ heygenSubmitsWordTruncation := by
  rintro ⟨N, hN⟩
  have h := hN longSingleWord "professional_female" "v"
  have hneW : longSingleWord ≠ [] := by
    intro hnil
    have hl := congrArg List.length hnil
    simp only [longSingleWord, List.length_replicate, List.length_nil] at hl
    omega
  have hsplit : pySplit longSingleWord = [longSingleWord] := by
    refine pySplit_single _ hneW ?_
    intro c hc
    have hca : c = 'a' := (List.mem_replicate.mp hc).2
    subst hca
    decide
  have hL : (heygenPayload longSingleWord "professional_female" "v").voice.input_text =
      longSingleWord.take 1500 := rfl
  rw [hsplit, hL] at h
  cases N with
  | zero =>
    have h0 : pyJoinSpace (([longSingleWord]).take 0) = [] := rfl
    rw [h0] at h
    have hlen := congrArg List.length h
    rw [List.length_take, List.length_nil] at hlen
    simp only [longSingleWord, List.length_replicate] at hlen
    omega
  | succ n =>
    have h1 : ([longSingleWord]).take (n + 1) = [longSingleWord] := by
      simp
    have h2 : pyJoinSpace [longSingleWord] = longSingleWord := by
      simp only [pyJoinSpace, List.intersperse_singleton, List.flatten_cons,
        List.flatten_nil, List.append_nil]
    rw [h1, h2] at h
    have hlen := congrArg List.length h
    rw [List.length_take] at hlen
    simp only [longSingleWord, List.length_replicate] at hlen
    omega

/-- C10: the circular-overlay composition scales the secondary clip to the
fixed 300×300 square, masks it with the circle of fixed radius 150 centred at
(150, 150) of that square, overlays it at one of exactly four corner anchors
with a fixed 20-pixel margin (unknown anchor names defaulting to
bottom-right), trims the composite to the probed narration duration, keeps
the background resolution, and leaves every pixel outside the masked circle
equal to the original background pixel. -/
theorem c10_circular_overlay (env : ComposeEnv)
    (screen_video avatar_video audio_file video_id pos : String) (d : ℚ)
    (bg av : Frame)
    (h1 : env.fileExists screen_video = true)
    (h2 : env.fileExists avatar_video = true)
    (h3 : env.fileExists audio_file = true)
    (h4 : env.probe audio_file = .ok d) :
    (VideoComposer.overlay_avatar_on_screen_recording env screen_video avatar_video
        audio_file video_id pos).2 = some (overlayCommand pos d) ∧
    (overlayCommand pos d).scale_w = 300 ∧
    (overlayCommand pos d).scale_h = 300 ∧
    (overlayCommand pos d).mask_cx = 150 ∧
    (overlayCommand pos d).mask_cy = 150 ∧
    (overlayCommand pos d).mask_r = 150 ∧
    (overlayCommand pos d).trim_seconds = d ∧
    (overlayFrame (overlayCommand pos d) bg av).width = bg.width ∧
    (overlayFrame (overlayCommand pos d) bg av).height = bg.height ∧
    overlayPositionExpr pos bg.width bg.height 300 300 ∈
      [(bg.width - 300 - 20, bg.height - 300 - 20), (20, bg.height - 300 - 20),
       (bg.width - 300 - 20, 20), (20, 20)] ∧
    (∀ x y : ℤ,
      (x - (overlayPositionExpr pos bg.width bg.height 300 300).1 - 150) ^ 2 +
          (y - (overlayPositionExpr pos bg.width bg.height 300 300).2 - 150) ^ 2 ≥
        150 ^ 2 →
      (overlayFrame (overlayCommand pos d) bg av).pix x y = bg.pix x y) := by
  refine ⟨?_, rfl, rfl, rfl, rfl, rfl, rfl, rfl, rfl, ?_, ?_⟩
  · by_cases hov : ∃ eo, env.overlayExit = .error eo
    · obtain ⟨eo, heo⟩ := hov
      simp [VideoComposer.overlay_avatar_on_screen_recording, h1, h2, h3, h4, heo]
    · cases hoe : env.overlayExit with
      | ok u =>
        simp [VideoComposer.overlay_avatar_on_screen_recording, h1, h2, h3, h4, hoe]
      | error eo => exact absurd ⟨eo, hoe⟩ hov
  · unfold overlayPositionExpr
    split_ifs <;> simp
  · intro x y hxy
    have hmask : maskAlpha (overlayCommand pos d)
        (x - (overlayPositionExpr pos bg.width bg.height 300 300).1)
        (y - (overlayPositionExpr pos bg.width bg.height 300 300).2) = 0 := by
      show (if (x - (overlayPositionExpr pos bg.width bg.height 300 300).1 - 150) ^ 2 +
            (y - (overlayPositionExpr pos bg.width bg.height 300 300).2 - 150) ^ 2 <
            150 ^ 2 then 255 else 0) = 0
      rw [if_neg (not_lt.mpr hxy)]
    have hne : ¬((overlayPositionExpr pos bg.width bg.height 300 300).1 ≤ x ∧
        x < (overlayPositionExpr pos bg.width bg.height 300 300).1 + 300 ∧
        (overlayPositionExpr pos bg.width bg.height 300 300).2 ≤ y ∧
        y < (overlayPositionExpr pos bg.width bg.height 300 300).2 + 300 ∧
        maskAlpha (overlayCommand pos d)
          (x - (overlayPositionExpr pos bg.width bg.height 300 300).1)
          (y - (overlayPositionExpr pos bg.width bg.height 300 300).2) = 255) := by
      rintro ⟨-, -, -, -, h255⟩
      rw [hmask] at h255
      exact absurd h255 (by decide)
    exact if_neg hne

/-- Witness for C10 at a concrete environment, anchor and frames. -/
theorem c10_witness :
    (VideoComposer.overlay_avatar_on_screen_recording envOverlayOk "videos/screen.mp4"
      "videos/avatar.mp4" "videos/narration.mp3" "w10" "top_left").2 =
      some (overlayCommand "top_left" (125 / 2)) ∧
    (overlayFrame (overlayCommand "top_left" (125 / 2)) bgFrame avFrame).width = 1920 := by
  have H := c10_circular_overlay envOverlayOk "videos/screen.mp4" "videos/avatar.mp4"
    "videos/narration.mp3" "w10" "top_left" (125 / 2) bgFrame avFrame rfl rfl rfl rfl
  obtain ⟨hcmd, -, -, -, -, -, -, hw, -, -, -⟩ := H
  exact ⟨hcmd, hw.trans rfl⟩

end Replivideo
